import Mathlib

set_option maxHeartbeats 1000000
set_option linter.unusedVariables false

/-!
Verification of the Zaik text-adventure engine core: the world model
(`backend/app/models/adventure.py`), the session model
(`backend/app/models/game_session.py`), the session store
(`backend/app/services/game_state.py`), the command executor
(`backend/app/services/command_executor.py`) and the rule-based fallback
command parser (`backend/app/services/command_parser.py`) are embedded
shallowly below, and the testable properties of the specification are
settled against them.

Modelling conventions:
* Python dicts are association lists `List (Key × Value)` with unique keys
  by construction of the data (lookups take the first hit, as a dict does).
* The Python set `visited_locations` is modelled as its duplicate-free
  enumeration, a `List String`; `set.add` is append-if-absent
  (`setInsert`).  The `list(set)`/`set(list)` conversions performed on
  save/load are bijections between a set and its enumeration and are
  modelled as the identity.
* `datetime` values are modelled by `Nat` clock readings passed in
  explicitly; the ISO-8601 string serialization performed on save/load is
  an injective encoding and is likewise modelled as the identity.  The
  stored document of a session therefore carries exactly the fields of
  `GameSession`, and the `game_sessions` table is a `List GameSession`.
* Python exceptions (`ValueError` in the store) are `Except String`.
* Python truthiness tests on `Optional[str]` values treat `None` and the
  empty string alike; `truthy` reproduces this.
* Parser character classes: Python's whitespace class — identical for
  `str.strip()`/`str.isspace()` and the regex `\s` on `str` patterns — is
  the exact 29-codepoint set reproduced by `isWs`.  The regex `.` matches
  every character except the newline, which `targetAfterThe` and the
  `use`-pattern splitter enforce.  `str.lower()` and the regex `\w` are
  modelled on ASCII, the game's input alphabet (`Char.toLower` and
  `Char.isAlphanum` agree with Python there); characters outside ASCII in
  player input are outside the model's scope for those two classes only.
-/

/-- Exit model (`adventure.py`): a directed, possibly locked edge of the
location graph. -/
structure Exit where
  direction : String
  location_id : String
  description : Option String := none
  locked : Bool := false
  required_item : Option String := none
deriving DecidableEq

/-- Item model (`adventure.py`). -/
structure Item where
  id : String
  name : String
  description : String
  takeable : Bool := true
  visible : Bool := true
deriving DecidableEq

/-- Location model (`adventure.py`); `exits` is keyed by direction name.
The `mood`/`tags` metadata is omitted: the engine never reads it. -/
structure Location where
  id : String
  name : String
  description : String
  exits : List (String × Exit) := []
  items : List Item := []
deriving DecidableEq

/-- Adventure model (`adventure.py`); `locations` is keyed by location id.
Authorship metadata (author, version, timestamps, difficulty, tags) is
omitted: the engine never reads it. -/
structure Adventure where
  id : String
  name : String
  description : String
  starting_location_id : String
  locations : List (String × Location)
deriving DecidableEq

/-- Command types (`commands.py`). -/
inductive CommandType where
  | move
  | take
  | drop
  | examine
  | use
  | look
  | inventory
  | help
  | unknown
deriving DecidableEq

/-- Parsed game command (`commands.py`); confidence is an exact rational
(the Python floats used by the parser are all exactly representable). -/
structure GameCommand where
  type : CommandType
  target : Option String := none
  secondary_target : Option String := none
  raw_input : String
  confidence : ℚ := 1
  error_message : Option String := none
deriving DecidableEq

/-- Result of executing a command (`commands.py`). -/
structure CommandResult where
  success : Bool
  message : String
  location_changed : Bool := false
  inventory_changed : Bool := false
deriving DecidableEq

/-- In-memory game session (`game_session.py`). -/
structure GameSession where
  id : String
  adventure_id : String
  player_name : Option String := none
  current_location_id : String
  visited_locations : List String := []
  inventory : List String := []
  location_states : List (String × List (String × Bool)) := []
  global_flags : List (String × Bool) := []
  created_at : Nat := 0
  updated_at : Nat := 0
  last_played_at : Nat := 0
deriving DecidableEq

/-- Equality of `Except` results is decidable componentwise. -/
instance {e a : Type} [DecidableEq e] [DecidableEq a] : DecidableEq (Except e a) :=
  fun x y =>
    match x, y with
    | .ok v, .ok w =>
      if h : v = w then .isTrue (by rw [h]) else .isFalse (by simp [h])
    | .error v, .error w =>
      if h : v = w then .isTrue (by rw [h]) else .isFalse (by simp [h])
    | .ok _, .error _ => .isFalse (by simp)
    | .error _, .ok _ => .isFalse (by simp)

/-- Python's whitespace class, exactly: the 29 code points for which
`str.isspace()` holds, which is also exactly the set matched by the regex
`\s` on `str` patterns: `\t \n \x0b \x0c \r`, `\x1c`-`\x1f`, the
space, `\x85`, `\xa0`, `\u1680`, `\u2000`-`\u200a`, `\u2028`,
`\u2029`, `\u202f`, `\u205f` and `\u3000`. -/
def isWs (c : Char) : Bool :=
  (9 ≤ c.toNat && c.toNat ≤ 13) || (28 ≤ c.toNat && c.toNat ≤ 32) ||
    c.toNat == 133 || c.toNat == 160 || c.toNat == 5760 ||
    (8192 ≤ c.toNat && c.toNat ≤ 8202) || c.toNat == 8232 || c.toNat == 8233 ||
    c.toNat == 8239 || c.toNat == 8287 || c.toNat == 12288

/-- Python `str.lower()` (character-wise; ASCII-exact, see the header). -/
def pyLower (s : String) : String :=
  String.mk (s.data.map Char.toLower)

/-- Python `str.strip()`: remove leading and trailing `isWs` characters
(`strip()` strips exactly the `str.isspace()` characters). -/
def pyStrip (s : String) : String :=
  String.mk (((s.data.dropWhile isWs).reverse.dropWhile isWs).reverse)

/-- Python truthiness of an `Optional[str]`: `None` and `""` are falsy. -/
def truthy (o : Option String) : Option String :=
  match o with
  | none => none
  | some t => if t = "" then none else some t

/-- Python `set.add` on the enumeration of a set: append the element
unless it is already present. -/
def setInsert (l : List String) (x : String) : List String :=
  if x ∈ l then l else l ++ [x]

/-- Association-list update with dict semantics: overwrite the binding if
the key is present (keys are unique in data built by the engine), append
it otherwise.  Models `d[k] = v` on a Python dict. -/
def assocSet {β : Type} (l : List (String × β)) (k : String) (v : β) :
    List (String × β) :=
  if l.any (fun p => p.1 == k) then
    l.map (fun p => if p.1 == k then (k, v) else p)
  else
    l ++ [(k, v)]

/-- TinyDB `upsert` keyed by `id`: update every matching document, insert
if none matches. -/
def upsert (tbl : List GameSession) (r : GameSession) :
    List GameSession :=
  if tbl.any (fun x => x.id == r.id) then
    tbl.map (fun x => if x.id == r.id then r else x)
  else
    tbl ++ [r]

/-- GameStateManager.get_session: first stored record with the given id,
re-parsed into a session (`GameSession(**result)`; the parse inverts the
serialization and is the identity here). -/
def get_session (tbl : List GameSession) (session_id : String) :
    Option GameSession :=
  match tbl.find? (fun x => x.id == session_id) with
  | some r => some r
  | none => none

/-- Timestamp refresh performed at the top of `save_session`
(`session.updated_at = datetime.now(); session.last_played_at = ...`). -/
def refresh (s : GameSession) (now : Nat) : GameSession :=
  { s with updated_at := now, last_played_at := now }

/-- GameStateManager.save_session: refresh timestamps, serialize
(`model_dump` plus the set-to-list and datetime-to-string conversions,
identities here), upsert keyed by the session id. -/
def save_session (tbl : List GameSession) (s : GameSession) (now : Nat) :
    List GameSession :=
  upsert tbl (refresh s now)

/-- GameStateManager.create_session: fresh session at the starting
location, visited set seeded with it, then saved.  The fresh UUID and the
clock are explicit parameters. -/
def create_session (tbl : List GameSession)
    (adventure_id starting_location_id : String)
    (player_name : Option String) (session_id : String) (now : Nat) :
    GameSession × List GameSession :=
  let s : GameSession :=
    { id := session_id
      adventure_id := adventure_id
      player_name := player_name
      current_location_id := starting_location_id
      visited_locations := [starting_location_id]
      created_at := now
      updated_at := now
      last_played_at := now }
  (refresh s now, save_session tbl s now)

/-- GameStateManager.delete_session: remove every record with the id. -/
def delete_session (tbl : List GameSession) (session_id : String) :
    List GameSession :=
  tbl.filter (fun x => !(x.id == session_id))

/-- GameStateManager.move_to_location: re-read the session, set the
current location, add it to the visited set, save. -/
def move_to_location (tbl : List GameSession)
    (session_id location_id : String) (now : Nat) :
    Except String (GameSession × List GameSession) :=
  match get_session tbl session_id with
  | none => .error ("Session " ++ session_id ++ " not found")
  | some s =>
    let s2 := { s with
      current_location_id := location_id
      visited_locations := setInsert s.visited_locations location_id }
    .ok (refresh s2 now, save_session tbl s2 now)

/-- GameStateManager.add_item: append the item id unless already held. -/
def add_item (tbl : List GameSession) (session_id item_id : String)
    (now : Nat) : Except String (GameSession × List GameSession) :=
  match get_session tbl session_id with
  | none => .error ("Session " ++ session_id ++ " not found")
  | some s =>
    let s2 := if item_id ∈ s.inventory then s
      else { s with inventory := s.inventory ++ [item_id] }
    .ok (refresh s2 now, save_session tbl s2 now)

/-- GameStateManager.remove_item: error when the item is not held,
otherwise delete the first occurrence (Python `list.remove`). -/
def remove_item (tbl : List GameSession) (session_id item_id : String)
    (now : Nat) : Except String (GameSession × List GameSession) :=
  match get_session tbl session_id with
  | none => .error ("Session " ++ session_id ++ " not found")
  | some s =>
    if item_id ∈ s.inventory then
      let s2 := { s with inventory := s.inventory.erase item_id }
      .ok (refresh s2 now, save_session tbl s2 now)
    else .error ("Item " ++ item_id ++ " not in inventory")

/-- GameStateManager.set_location_flag. -/
def set_location_flag (tbl : List GameSession)
    (session_id location_id flag_name : String) (value : Bool) (now : Nat) :
    Except String (GameSession × List GameSession) :=
  match get_session tbl session_id with
  | none => .error ("Session " ++ session_id ++ " not found")
  | some s =>
    let inner := (List.lookup location_id s.location_states).getD []
    let s2 := { s with
      location_states :=
        assocSet s.location_states location_id (assocSet inner flag_name value) }
    .ok (refresh s2 now, save_session tbl s2 now)

/-- GameStateManager.set_global_flag. -/
def set_global_flag (tbl : List GameSession)
    (session_id flag_name : String) (value : Bool) (now : Nat) :
    Except String (GameSession × List GameSession) :=
  match get_session tbl session_id with
  | none => .error ("Session " ++ session_id ++ " not found")
  | some s =>
    let s2 := { s with global_flags := assocSet s.global_flags flag_name value }
    .ok (refresh s2 now, save_session tbl s2 now)

/-- CommandExecutor._get_adventure: first adventure with the given id. -/
def get_adventure (adventures : List Adventure) (adventure_id : String) :
    Option Adventure :=
  adventures.find? (fun a => a.id == adventure_id)

/-- CommandExecutor._get_location: dictionary lookup in the adventure. -/
def get_location (adventure : Adventure) (location_id : String) :
    Option Location :=
  List.lookup location_id adventure.locations

/-- Substring test helper: `isPrefixList n h` holds when `n` is a prefix of
`h` (character lists). -/
def isPrefixList : List Char → List Char → Bool
  | [], _ => true
  | _ :: _, [] => false
  | a :: as, b :: bs => a == b && isPrefixList as bs

/-- Substring test helper: `isSubList n h` holds when `n` occurs
contiguously inside `h`; models Python's `n in h` on strings. -/
def isSubList (needle : List Char) : List Char → Bool
  | [] => needle.isEmpty
  | c :: t => isPrefixList needle (c :: t) || isSubList needle t

/-- Python string containment `needle in hay`. -/
def strContains (hay needle : String) : Bool :=
  isSubList needle.data hay.data

/-- CommandExecutor._find_item_in_location: first visible item whose
lower-cased display name equals or contains the lower-cased target, or
whose lower-cased id equals it. -/
def find_item_in_location (location : Location) (item_name : String) :
    Option Item :=
  let n := pyLower item_name
  location.items.find? (fun item =>
    item.visible &&
      (pyLower item.name == n || strContains (pyLower item.name) n ||
        pyLower item.id == n))

/-- Message fragment listing the exit keys (`", ".join(location.exits.keys())`). -/
def fmtExits (location : Location) : String :=
  String.intercalate ", " (location.exits.map (fun p => p.1))

/-- Names of the visible items of a location, in list order. -/
def visibleItemNames (location : Location) : List String :=
  (location.items.filter (fun item => item.visible)).map (fun item => item.name)

/-- Location description composed by `_execute_look` and by `_execute_move`
after a successful move: name, description, exit list, visible items. -/
def locationMessage (location : Location) : String :=
  let base := location.name ++ "\n\n" ++ location.description
  let base := if location.exits ≠ [] then
    base ++ "\n\nVisible exits: " ++ fmtExits location else base
  if visibleItemNames location ≠ [] then
    base ++ "\n\nYou can see: " ++ String.intercalate ", " (visibleItemNames location)
  else base

/-- CommandExecutor._execute_move. -/
def execute_move (cmd : GameCommand) (session : GameSession)
    (adventure : Adventure) (location : Location)
    (tbl : List GameSession) (now : Nat) :
    Except String (CommandResult × List GameSession) :=
  match truthy cmd.target with
  | none => .ok
      ({ success := false
         message := "Which direction? Available exits: " ++ fmtExits location },
       tbl)
  | some t =>
    match List.lookup t location.exits with
    | none => .ok
        ({ success := false
           message := "You can't go that way. Available exits: " ++ fmtExits location },
         tbl)
    | some exit_data =>
      if exit_data.locked then
        match truthy exit_data.required_item with
        | some ri => .ok
            ({ success := false
               message := ("The " ++ t ++ " exit is locked. You need ") ++ ri ++ "." },
             tbl)
        | none => .ok
            ({ success := false
               message := ("The " ++ t) ++ " exit is locked." },
             tbl)
      else
        match move_to_location tbl session.id exit_data.location_id now with
        | .error e => .error e
        | .ok (_, tbl2) =>
          let message := match get_location adventure exit_data.location_id with
            | some newLoc => locationMessage newLoc
            | none => "You go " ++ t ++ "."
          .ok ({ success := true, message := message, location_changed := true },
            tbl2)

/-- CommandExecutor._execute_take. -/
def execute_take (cmd : GameCommand) (session : GameSession)
    (adventure : Adventure) (location : Location)
    (tbl : List GameSession) (now : Nat) :
    Except String (CommandResult × List GameSession) :=
  match truthy cmd.target with
  | none =>
    if visibleItemNames location ≠ [] then .ok
      ({ success := false
         message := "What do you want to take? You can see: " ++
           String.intercalate ", " (visibleItemNames location) }, tbl)
    else .ok ({ success := false, message := "There's nothing here to take." }, tbl)
  | some t =>
    match find_item_in_location location t with
    | none => .ok
        ({ success := false, message := ("You don't see '" ++ t) ++ "' here." }, tbl)
    | some item =>
      if !item.takeable then .ok
        ({ success := false, message := ("You can't take the " ++ item.name) ++ "." },
         tbl)
      else if item.id ∈ session.inventory then .ok
        ({ success := false, message := ("You already have the " ++ item.name) ++ "." },
         tbl)
      else
        match add_item tbl session.id item.id now with
        | .error e => .error e
        | .ok (_, tbl1) =>
          match set_location_flag tbl1 session.id location.id
              ("item_taken_" ++ item.id) true now with
          | .error e => .error e
          | .ok (_, tbl2) => .ok
              ({ success := true
                 message := ("You take the " ++ item.name) ++ "."
                 inventory_changed := true }, tbl2)

/-- CommandExecutor._execute_drop. -/
def execute_drop (cmd : GameCommand) (session : GameSession)
    (adventure : Adventure) (location : Location)
    (tbl : List GameSession) (now : Nat) :
    Except String (CommandResult × List GameSession) :=
  match truthy cmd.target with
  | none =>
    if session.inventory ≠ [] then .ok
      ({ success := false
         message := "What do you want to drop? You're carrying: " ++
           String.intercalate ", " session.inventory }, tbl)
    else .ok ({ success := false, message := "You're not carrying anything." }, tbl)
  | some t =>
    match session.inventory.find?
        (fun inv_item_id => strContains (pyLower inv_item_id) (pyLower t)) with
    | none => .ok
        ({ success := false, message := ("You don't have '" ++ t) ++ "'." }, tbl)
    | some item_id =>
      match remove_item tbl session.id item_id now with
      | .error e => .error e
      | .ok (_, tbl2) => .ok
          ({ success := true
             message := ("You drop the " ++ item_id) ++ "."
             inventory_changed := true }, tbl2)

/-- CommandExecutor._execute_examine. -/
def execute_examine (cmd : GameCommand) (session : GameSession)
    (adventure : Adventure) (location : Location)
    (tbl : List GameSession) (now : Nat) :
    Except String (CommandResult × List GameSession) :=
  match truthy cmd.target with
  | none => .ok ({ success := false, message := "What do you want to examine?" }, tbl)
  | some t =>
    match find_item_in_location location t with
    | some item => .ok
        ({ success := true, message := item.name ++ ": " ++ item.description }, tbl)
    | none =>
      match session.inventory.find?
          (fun item_id => strContains (pyLower item_id) (pyLower t)) with
      | some item_id => .ok
          ({ success := true, message := ("You examine the " ++ item_id) ++ "." }, tbl)
      | none => .ok
          ({ success := false, message := ("You don't see '" ++ t) ++ "' here." }, tbl)

/-- CommandExecutor._execute_use. -/
def execute_use (cmd : GameCommand) (session : GameSession)
    (adventure : Adventure) (location : Location)
    (tbl : List GameSession) (now : Nat) :
    Except String (CommandResult × List GameSession) :=
  match truthy cmd.target with
  | none => .ok ({ success := false, message := "What do you want to use?" }, tbl)
  | some t =>
    if t ∉ session.inventory then .ok
      ({ success := false, message := ("You don't have '" ++ t) ++ "'." }, tbl)
    else
      match truthy cmd.secondary_target with
      | some st => .ok
          ({ success := true
             message := ("You try to use the " ++ t ++ " on the ") ++ st ++
               ", but nothing happens." }, tbl)
      | none => .ok
          ({ success := true, message := ("You use the " ++ t) ++ "." }, tbl)

/-- CommandExecutor._execute_look. -/
def execute_look (cmd : GameCommand) (session : GameSession)
    (adventure : Adventure) (location : Location)
    (tbl : List GameSession) (now : Nat) :
    Except String (CommandResult × List GameSession) :=
  .ok ({ success := true, message := locationMessage location }, tbl)

/-- Static help text returned by `_execute_help`. -/
def helpText : String :=
  "Available commands:\n- Movement: go [direction], north, south, east, west, up, down\n- Items: take [item], drop [item], examine [item], use [item]\n- Information: look, inventory (or i)\n- Other: help\n\nYou can use natural language! Try things like:\n- \"pick up the candle\"\n- \"walk to the graveyard\"\n- \"check my inventory\"\n"

/-- CommandExecutor._execute_inventory. -/
def execute_inventory (cmd : GameCommand) (session : GameSession)
    (adventure : Adventure) (location : Location)
    (tbl : List GameSession) (now : Nat) :
    Except String (CommandResult × List GameSession) :=
  if session.inventory = [] then
    .ok ({ success := true, message := "You aren't carrying anything." }, tbl)
  else
    .ok ({ success := true
           message := "You are carrying: " ++ String.intercalate ", " session.inventory },
      tbl)

/-- CommandExecutor._execute_help. -/
def execute_help (cmd : GameCommand) (session : GameSession)
    (adventure : Adventure) (location : Location)
    (tbl : List GameSession) (now : Nat) :
    Except String (CommandResult × List GameSession) :=
  .ok ({ success := true, message := helpText }, tbl)

/-- CommandExecutor._execute_unknown (`command.error_message or f"..."`). -/
def execute_unknown (cmd : GameCommand) (session : GameSession)
    (adventure : Adventure) (location : Location)
    (tbl : List GameSession) (now : Nat) :
    Except String (CommandResult × List GameSession) :=
  let message := match truthy cmd.error_message with
    | some m => m
    | none => ("I don't understand '" ++ cmd.raw_input) ++ "'. Type 'help' for assistance."
  .ok ({ success := false, message := message }, tbl)

/-- CommandExecutor.execute: resolve session, adventure and current
location (each missing one is a failed result, not an exception), then
dispatch on the command type.  All nine types have handlers, so the
"not implemented" fallback of the source is unreachable. -/
def execute (cmd : GameCommand) (session_id : String)
    (adventures : List Adventure) (tbl : List GameSession) (now : Nat) :
    Except String (CommandResult × List GameSession) :=
  match get_session tbl session_id with
  | none => .ok ({ success := false, message := "Session not found" }, tbl)
  | some session =>
    match get_adventure adventures session.adventure_id with
    | none => .ok ({ success := false, message := "Adventure data not found" }, tbl)
    | some adventure =>
      match get_location adventure session.current_location_id with
      | none => .ok ({ success := false, message := "Current location not found" }, tbl)
      | some location =>
        match cmd.type with
        | .move => execute_move cmd session adventure location tbl now
        | .take => execute_take cmd session adventure location tbl now
        | .drop => execute_drop cmd session adventure location tbl now
        | .examine => execute_examine cmd session adventure location tbl now
        | .use => execute_use cmd session adventure location tbl now
        | .look => execute_look cmd session adventure location tbl now
        | .inventory => execute_inventory cmd session adventure location tbl now
        | .help => execute_help cmd session adventure location tbl now
        | .unknown => execute_unknown cmd session adventure location tbl now

/-- Character class of the regex `\w`. -/
def isWordChar (c : Char) : Bool :=
  c.isAlphanum || c == '_'

/-- A nonempty string consisting of `\w` characters only: what `^(\w+)$`
accepts. -/
def isWordStr (s : String) : Bool :=
  !(s == "") && s.data.all isWordChar

/-- Helper for `tokens`: accumulate the current word (reversed) while
scanning the character list. -/
def tokensAux (cur : List Char) : List Char → List String
  | [] => if cur.isEmpty then [] else [String.mk cur.reverse]
  | c :: cs =>
    if isWs c then
      if cur.isEmpty then tokensAux [] cs
      else String.mk cur.reverse :: tokensAux [] cs
    else tokensAux (c :: cur) cs

/-- Whitespace-separated tokens of the normalized input: how the regexes
`verb\s+...` decompose their subject (maximal nonempty runs of
non-whitespace characters). -/
def tokens (s : String) : List String :=
  tokensAux [] s.data

/-- Match the regex fragment `verb\s+` at the start of `s`: the literal
verb, at least one whitespace character, then the rest with leading
whitespace consumed (greedy `\s+`; sound here because no continuation of
these regexes can start with whitespace). -/
def stripVerbWs (verb : List Char) (s : List Char) : Option (List Char) :=
  if isPrefixList verb s then
    match s.drop verb.length with
    | [] => none
    | c :: rest => if isWs c then some ((c :: rest).dropWhile isWs) else none
  else none

/-- Ordered alternation `(?:v1|v2|...)\s+` over literal verbs.  No verb of
the engine's alternations is a prefix of another followed by whitespace, so
taking the first hit agrees with regex backtracking. -/
def stripAnyVerb (verbs : List String) (s : List Char) : Option (List Char) :=
  match verbs with
  | [] => none
  | v :: vs =>
    match stripVerbWs v.data s with
    | some r => some r
    | none => stripAnyVerb vs s

/-- Match the regex fragment `(?:the\s+)?(.+)$` against `r`: strip a
leading `the` followed by whitespace when possible (backtracking to not
stripping when that leaves `(.+)$` nothing it can match), and require a
nonempty remainder containing no newline: `.` matches any character
except `\n`, and since `r` is always a suffix of the stripped input it
never ends in whitespace, so `$` can only match at the very end and
`(.+)` must cover the whole remainder. -/
def targetAfterThe (r : List Char) : Option (List Char) :=
  match stripVerbWs "the".data r with
  | some r2 =>
    if r2.isEmpty || r2.contains '\n' then
      (if r.isEmpty || r.contains '\n' then none else some r)
    else some r2
  | none => if r.isEmpty || r.contains '\n' then none else some r

/-- Match the regex fragment `\s+(?:on|with)\s+(?:the\s+)?(.+)$` at the
start of `rest`, returning the captured final target. -/
def matchOnWith (rest : List Char) : Option (List Char) :=
  match rest with
  | [] => none
  | c :: _ =>
    if isWs c then
      match stripAnyVerb ["on", "with"] (rest.dropWhile isWs) with
      | some y0 => targetAfterThe y0
      | none => none
    else none

/-- Non-greedy search of `(.+?)\s+(?:on|with)\s+(?:the\s+)?(.+)$`: grow the
first capture one character at a time (shortest first, as `+?` does) until
the continuation matches; the growth stops at a newline, which `.` cannot
match, so no capture extending past it exists. -/
def useSplitAux (acc : List Char) (rest : List Char) :
    Option (List Char × List Char) :=
  match matchOnWith rest with
  | some y => some (acc, y)
  | none =>
    match rest with
    | [] => none
    | c :: cs => if c = '\n' then none else useSplitAux (acc ++ [c]) cs

/-- Split `r` as `X \s+ (on|with) \s+ (the\s+)? Y` with the shortest
nonempty newline-free `X`, as the first `use` pattern captures it. -/
def splitOnWith (r : List Char) : Option (List Char × List Char) :=
  match r with
  | [] => none
  | c :: cs => if c = '\n' then none else useSplitAux [c] cs

/-- Movement verbs of the first movement pattern. -/
def moveVerbs : List String :=
  ["go", "walk", "move", "head", "run"]

/-- Bare direction words of the second movement pattern. -/
def directionWords : List String :=
  ["north", "south", "east", "west", "n", "s", "e", "w", "up", "down", "u", "d"]

/-- Verbs of the take patterns. -/
def takeVerbs : List String :=
  ["take", "get", "pick up", "grab", "pickup"]

/-- Verbs of the drop pattern. -/
def dropVerbs : List String :=
  ["drop", "discard", "leave"]

/-- Verbs of the examine pattern. -/
def examineVerbs : List String :=
  ["examine", "inspect", "look at", "check", "x"]

/-- Capture of `^(?:go|walk|move|head|run)\s+(?:to\s+)?(?:the\s+)?(\w+)$`
on the token decomposition of the normalized input: the optional `to` and
`the` fillers may each be consumed once (in that order), and the final
token must be a single `\w+` word. -/
def moveP1 (toks : List String) : Option String :=
  match toks with
  | [v, t1, t2, w] =>
    if v ∈ moveVerbs ∧ t1 = "to" ∧ t2 = "the" ∧ isWordStr w then some w else none
  | [v, t1, w] =>
    if v ∈ moveVerbs ∧ (t1 = "to" ∨ t1 = "the") ∧ isWordStr w then some w else none
  | [v, w] =>
    if v ∈ moveVerbs ∧ isWordStr w then some w else none
  | _ => none

/-- Direction candidates produced by the three movement patterns, in
pattern order, paired with the pattern's confidence (1.0, 1.0, 0.5). -/
def moveCandidates (n : String) : List (String × ℚ) :=
  ((moveP1 (tokens n)).toList.map (fun w => (w, (1 : ℚ)))) ++
    (if n ∈ directionWords then [(n, (1 : ℚ))] else []) ++
    (if isWordStr n = true then [(n, (1 / 2 : ℚ))] else [])

/-- Movement recognizer of `_parse_with_patterns`: the first candidate,
in pattern order, that is a key of the current location's exits; a
candidate that is not an exit key lets the input fall through. -/
def recognizeMove (n : String) (location : Location) : Option (String × ℚ) :=
  (moveCandidates n).find? (fun p => (List.lookup p.1 location.exits).isSome)

/-- Take recognizer: verb plus optional target phrase (`some (some t)`),
or a bare take verb (`some none`). -/
def recognizeTake (n : String) : Option (Option String) :=
  match stripAnyVerb takeVerbs n.data with
  | some r =>
    match targetAfterThe r with
    | some t => some (some (String.mk t))
    | none => if n ∈ takeVerbs then some none else none
  | none => if n ∈ takeVerbs then some none else none

/-- Drop recognizer: verb plus required target phrase. -/
def recognizeDrop (n : String) : Option String :=
  match stripAnyVerb dropVerbs n.data with
  | some r => (targetAfterThe r).map String.mk
  | none => none

/-- Examine recognizer: verb plus required target phrase. -/
def recognizeExamine (n : String) : Option String :=
  match stripAnyVerb examineVerbs n.data with
  | some r => (targetAfterThe r).map String.mk
  | none => none

/-- Use recognizer: `use X on Y` / `use X with Y` (first pattern, with the
optional leading `the` stripped, backtracking when stripping it kills the
match), else `use X`. -/
def recognizeUse (n : String) : Option (String × Option String) :=
  match stripAnyVerb ["use"] n.data with
  | none => none
  | some r =>
    let firstPat := match stripVerbWs "the".data r with
      | some r2 =>
        match splitOnWith r2 with
        | some xy => some xy
        | none => splitOnWith r
      | none => splitOnWith r
    match firstPat with
    | some (x, y) => some (String.mk x, some (String.mk y))
    | none =>
      match targetAfterThe r with
      | some t => some (String.mk t, none)
      | none => none

/-- Recognizer chain evaluated after the movement rules fall through:
take, drop, examine, use, then the unknown command. -/
def parseRest (n : String) (raw : String) : GameCommand :=
  match recognizeTake n with
  | some tgt =>
    { type := .take, target := tgt, raw_input := raw, confidence := (4 / 5 : ℚ) }
  | none =>
    match recognizeDrop n with
    | some t =>
      { type := .drop, target := some t, raw_input := raw, confidence := (4 / 5 : ℚ) }
    | none =>
      match recognizeExamine n with
      | some t =>
        { type := .examine, target := some t, raw_input := raw
          confidence := (4 / 5 : ℚ) }
      | none =>
        match recognizeUse n with
        | some (t, sec) =>
          { type := .use, target := some t, secondary_target := sec
            raw_input := raw, confidence := (7 / 10 : ℚ) }
        | none =>
          { type := .unknown, raw_input := raw, confidence := 0
            error_message :=
              some (("I don't understand '" ++ raw) ++ "'. Type 'help' for assistance.") }

/-- Normalization applied first: `player_input.lower().strip()`. -/
def normalizeInput (player_input : String) : String :=
  pyStrip (pyLower player_input)

/-- CommandParser._parse_with_patterns: the deterministic rule-based
fallback parser.  Total by construction (never raises). -/
def parse_with_patterns (player_input : String) (location : Location)
    (inventory : List String) : GameCommand :=
  let normalized := normalizeInput player_input
  if normalized ∈ ["inventory", "i", "inv"] then
    { type := .inventory, raw_input := player_input, confidence := 1 }
  else if normalized ∈ ["look", "l", "look around"] then
    { type := .look, raw_input := player_input, confidence := 1 }
  else if normalized ∈ ["help", "?"] then
    { type := .help, raw_input := player_input, confidence := 1 }
  else
    match recognizeMove normalized location with
    | some (d, c) =>
      { type := .move, target := some d, raw_input := player_input, confidence := c }
    | none => parseRest normalized player_input

/-- Well-formedness of an adventure's exit graph, as the spec states it:
every exit of every location targets a location id present in the same
adventure's location map. -/
def exitsClosed (adventure : Adventure) : Prop :=
  ∀ p ∈ adventure.locations, ∀ q ∈ p.2.exits,
    (List.lookup q.2.location_id adventure.locations).isSome = true

instance (adventure : Adventure) : Decidable (exitsClosed adventure) := by
  unfold exitsClosed
  infer_instance

/-- Session-store and executor operations addressed to one session, as the
monotonicity property quantifies over them: every read-modify-write
operation of `GameStateManager` keyed by a session id, session deletion,
and a full `CommandExecutor.execute` call.  (`save_session` itself is the
persistence primitive taking an externally supplied session value, not an
operation on the stored session, and `create_session` is the seeding step
treated separately.) -/
inductive StoreOp where
  | moveLoc (location_id : String) (now : Nat)
  | addItem (item_id : String) (now : Nat)
  | removeItem (item_id : String) (now : Nat)
  | setLocFlag (location_id flag_name : String) (value : Bool) (now : Nat)
  | setGlobFlag (flag_name : String) (value : Bool) (now : Nat)
  | deleteSession
  | exec (cmd : GameCommand) (adventures : List Adventure) (now : Nat)

/-- Run one operation against the stored table; a raised `ValueError`
leaves the store untouched (the store writes only on its success path). -/
def runOp (sid : String) (tbl : List GameSession) : StoreOp → List GameSession
  | .moveLoc lid now =>
    match move_to_location tbl sid lid now with
    | .ok (_, tbl2) => tbl2
    | .error _ => tbl
  | .addItem iid now =>
    match add_item tbl sid iid now with
    | .ok (_, tbl2) => tbl2
    | .error _ => tbl
  | .removeItem iid now =>
    match remove_item tbl sid iid now with
    | .ok (_, tbl2) => tbl2
    | .error _ => tbl
  | .setLocFlag lid fname v now =>
    match set_location_flag tbl sid lid fname v now with
    | .ok (_, tbl2) => tbl2
    | .error _ => tbl
  | .setGlobFlag fname v now =>
    match set_global_flag tbl sid fname v now with
    | .ok (_, tbl2) => tbl2
    | .error _ => tbl
  | .deleteSession => delete_session tbl sid
  | .exec cmd advs now =>
    match execute cmd sid advs tbl now with
    | .ok (_, tbl2) => tbl2
    | .error _ => tbl

/-- Run a sequence of operations, oldest first. -/
def runOps (sid : String) (tbl : List GameSession) (ops : List StoreOp) :
    List GameSession :=
  ops.foldl (runOp sid) tbl

/-- Item-matching predicate written from the claim's wording: the target
equals the display name case-insensitively, or is a case-insensitive
substring of the display name, or is an exact match of the item id. -/
def specTakeMatch (target : String) (item : Item) : Bool :=
  (pyLower target == pyLower item.name) ||
    strContains (pyLower item.name) (pyLower target) ||
    (target == item.id)

/-- Item-matching predicate with the id comparison amended to be
case-insensitive, which is what the code performs. -/
def specTakeMatchAmended (target : String) (item : Item) : Bool :=
  (pyLower target == pyLower item.name) ||
    strContains (pyLower item.name) (pyLower target) ||
    (pyLower target == pyLower item.id)

/-- Sample world: an unlocked north exit of the witness room. -/
def wExitN : Exit :=
  { direction := "north", location_id := "room2" }

/-- Sample world: a locked east exit requiring a key. -/
def wExitE : Exit :=
  { direction := "east", location_id := "room3", locked := true
    required_item := some "key" }

/-- Sample world: a takeable visible sword. -/
def wSword : Item :=
  { id := "sword", name := "Sword", description := "A sharp sword." }

/-- Sample world: the starting room. -/
def wRoom1 : Location :=
  { id := "room1", name := "Room One", description := "First room."
    exits := [("north", wExitN), ("east", wExitE)], items := [wSword] }

/-- Sample world: the room north of the start. -/
def wRoom2 : Location :=
  { id := "room2", name := "Room Two", description := "Second room." }

/-- Sample world: the room behind the locked exit. -/
def wRoom3 : Location :=
  { id := "room3", name := "Room Three", description := "Third room." }

/-- Sample world: a three-room adventure with a closed exit graph. -/
def wAdv : Adventure :=
  { id := "adv1", name := "Witness Adventure", description := "w"
    starting_location_id := "room1"
    locations := [("room1", wRoom1), ("room2", wRoom2), ("room3", wRoom3)] }

/-- Sample session holding a lamp, located in the starting room. -/
def wSession : GameSession :=
  { id := "sid1", adventure_id := "adv1", current_location_id := "room1"
    visited_locations := ["room1"], inventory := ["lamp"] }

/-- Sample store containing `wSession`. -/
def wTbl : List GameSession :=
  [wSession]

/-- Sample session already holding the sword. -/
def wSessionSword : GameSession :=
  { id := "sid2", adventure_id := "adv1", current_location_id := "room1"
    visited_locations := ["room1"], inventory := ["sword"] }

/-- Sample store containing `wSessionSword`. -/
def wTblSword : List GameSession :=
  [wSessionSword]

/-- Counterexample item: its id matches the target only up to case, and
its display name shares nothing with the target. -/
def ceItem : Item :=
  { id := "key", name := "Brass Object", description := "A heavy brass object." }

/-- Counterexample location holding `ceItem`. -/
def ceLoc : Location :=
  { id := "room1", name := "Room One", description := "First room."
    items := [ceItem] }

theorem get_session_id (tbl : List GameSession) (sid : String) (s : GameSession)
    (h : get_session tbl sid = some s) : s.id = sid := by
  unfold get_session at h
  split at h
  · rename_i r hr
    cases h
    have := List.find?_some hr
    simpa using this
  · cases h

theorem find?_map_update_self (tbl : List GameSession) (r : GameSession)
    (h : tbl.any (fun x => x.id == r.id) = true) :
    (tbl.map (fun x => if x.id == r.id then r else x)).find?
      (fun x => x.id == r.id) = some r := by
  induction tbl with
  | nil => simp at h
  | cons x t ih =>
    simp only [List.any_cons, Bool.or_eq_true] at h
    simp only [List.map_cons]
    by_cases hx : (x.id == r.id) = true
    · rw [if_pos hx]
      exact List.find?_cons_of_pos _ (by simp)
    · rw [if_neg hx, List.find?_cons_of_neg _ (by simp [hx])]
      exact ih (h.resolve_left hx)

theorem find?_upsert_self (tbl : List GameSession) (r : GameSession) :
    (upsert tbl r).find? (fun x => x.id == r.id) = some r := by
  unfold upsert
  split
  · exact find?_map_update_self tbl r ‹_›
  · rename_i hany
    have hnone : tbl.find? (fun x => x.id == r.id) = none := by
      rw [List.find?_eq_none]
      intro x hx hpx
      have : tbl.any (fun x => x.id == r.id) = true := by
        rw [List.any_eq_true]
        exact ⟨x, hx, hpx⟩
      exact hany this
    rw [List.find?_append, hnone]
    simp [List.find?]

theorem find?_upsert_ne (tbl : List GameSession) (r : GameSession) (sid : String)
    (hne : ¬ r.id = sid) :
    (upsert tbl r).find? (fun x => x.id == sid) =
      tbl.find? (fun x => x.id == sid) := by
  unfold upsert
  split
  · rename_i hany
    clear hany
    induction tbl with
    | nil => simp
    | cons x t ih =>
      simp only [List.map_cons]
      by_cases hx : (x.id == r.id) = true
      · have hxid : x.id = r.id := by simpa using hx
        rw [if_pos hx, List.find?_cons_of_neg _ (by simp [hne]),
          List.find?_cons_of_neg _ (by simp [hxid, hne])]
        exact ih
      · rw [if_neg hx]
        by_cases hxs : (x.id == sid) = true
        · rw [@List.find?_cons_of_pos _ (fun y => y.id == sid) x
              (List.map (fun x => if (x.id == r.id) = true then r else x) t) hxs,
            @List.find?_cons_of_pos _ (fun y => y.id == sid) x t hxs]
        · rw [List.find?_cons_of_neg _ (by simp_all), List.find?_cons_of_neg _ (by simp_all)]
          exact ih
  · rw [List.find?_append]
    cases hf : tbl.find? (fun x => x.id == sid) with
    | some v => rfl
    | none =>
      have : (r.id == sid) = false := by simp [hne]
      simp [List.find?, this]

theorem refresh_id (s : GameSession) (now : Nat) : (refresh s now).id = s.id := rfl

theorem get_session_save_self (tbl : List GameSession) (s : GameSession) (now : Nat)
    (sid : String) (hid : s.id = sid) :
    get_session (save_session tbl s now) sid = some (refresh s now) := by
  unfold get_session save_session
  rw [show sid = (refresh s now).id from by rw [refresh_id, hid], find?_upsert_self]

theorem get_session_save_ne (tbl : List GameSession) (s : GameSession) (now : Nat)
    (sid : String) (hne : ¬ s.id = sid) :
    get_session (save_session tbl s now) sid = get_session tbl sid := by
  unfold get_session save_session
  rw [find?_upsert_ne tbl (refresh s now) sid hne]

theorem get_session_delete_self (tbl : List GameSession) (sid : String) :
    get_session (delete_session tbl sid) sid = none := by
  unfold get_session delete_session
  have h : (tbl.filter fun x => !(x.id == sid)).find? (fun x => x.id == sid) = none := by
    rw [List.find?_eq_none]
    intro x hx hpx
    have := (List.mem_filter.mp hx).2
    simp [hpx] at this
  rw [h]

theorem lookup_mem {β : Type} (k : String) (l : List (String × β)) (v : β)
    (h : List.lookup k l = some v) : (k, v) ∈ l := by
  induction l with
  | nil => cases h
  | cons p t ih =>
    obtain ⟨a, b⟩ := p
    unfold List.lookup at h
    split at h
    · rename_i hk
      cases h
      have : k = a := by simpa using hk
      subst this
      exact List.mem_cons_self _ _
    · exact List.mem_cons_of_mem _ (ih h)

theorem setInsert_mem (l : List String) (y x : String) (h : x ∈ l) :
    x ∈ setInsert l y := by
  unfold setInsert
  split
  · exact h
  · exact List.mem_append_left _ h

theorem move_to_location_ok (tbl : List GameSession) (sid lid : String) (now : Nat)
    (s2 : GameSession) (tbl2 : List GameSession)
    (h : move_to_location tbl sid lid now = .ok (s2, tbl2)) :
    ∃ s, get_session tbl sid = some s ∧
      s2 = refresh
          { s with current_location_id := lid
                   visited_locations := setInsert s.visited_locations lid } now ∧
      tbl2 = save_session tbl
          { s with current_location_id := lid
                   visited_locations := setInsert s.visited_locations lid } now := by
  unfold move_to_location at h
  split at h
  · cases h
  · rename_i s hs
    cases h
    exact ⟨s, hs, rfl, rfl⟩

theorem add_item_ok (tbl : List GameSession) (sid iid : String) (now : Nat)
    (s2 : GameSession) (tbl2 : List GameSession)
    (h : add_item tbl sid iid now = .ok (s2, tbl2)) :
    ∃ s, get_session tbl sid = some s ∧
      s2 = refresh (if iid ∈ s.inventory then s
        else { s with inventory := s.inventory ++ [iid] }) now ∧
      tbl2 = save_session tbl (if iid ∈ s.inventory then s
        else { s with inventory := s.inventory ++ [iid] }) now := by
  unfold add_item at h
  split at h
  · cases h
  · rename_i s hs
    cases h
    exact ⟨s, hs, rfl, rfl⟩

theorem remove_item_ok (tbl : List GameSession) (sid iid : String) (now : Nat)
    (s2 : GameSession) (tbl2 : List GameSession)
    (h : remove_item tbl sid iid now = .ok (s2, tbl2)) :
    ∃ s, get_session tbl sid = some s ∧ iid ∈ s.inventory ∧
      s2 = refresh { s with inventory := s.inventory.erase iid } now ∧
      tbl2 = save_session tbl { s with inventory := s.inventory.erase iid } now := by
  unfold remove_item at h
  split at h
  · cases h
  · rename_i s hs
    split at h
    · rename_i hmem
      cases h
      exact ⟨s, hs, hmem, rfl, rfl⟩
    · cases h

theorem set_location_flag_ok (tbl : List GameSession)
    (sid lid fname : String) (v : Bool) (now : Nat)
    (s2 : GameSession) (tbl2 : List GameSession)
    (h : set_location_flag tbl sid lid fname v now = .ok (s2, tbl2)) :
    ∃ s, get_session tbl sid = some s ∧
      s2 = refresh
          { s with location_states := assocSet s.location_states lid
                     (assocSet ((List.lookup lid s.location_states).getD []) fname v) } now ∧
      tbl2 = save_session tbl
          { s with location_states := assocSet s.location_states lid
                     (assocSet ((List.lookup lid s.location_states).getD []) fname v) } now := by
  unfold set_location_flag at h
  split at h
  · cases h
  · rename_i s hs
    cases h
    exact ⟨s, hs, rfl, rfl⟩

theorem set_global_flag_ok (tbl : List GameSession)
    (sid fname : String) (v : Bool) (now : Nat)
    (s2 : GameSession) (tbl2 : List GameSession)
    (h : set_global_flag tbl sid fname v now = .ok (s2, tbl2)) :
    ∃ s, get_session tbl sid = some s ∧
      s2 = refresh { s with global_flags := assocSet s.global_flags fname v } now ∧
      tbl2 = save_session tbl { s with global_flags := assocSet s.global_flags fname v } now := by
  unfold set_global_flag at h
  split at h
  · cases h
  · rename_i s hs
    cases h
    exact ⟨s, hs, rfl, rfl⟩

theorem execute_move_post (cmd : GameCommand) (s : GameSession) (adv : Adventure)
    (loc : Location) (tbl : List GameSession) (now : Nat)
    (res : CommandResult) (tbl2 : List GameSession)
    (h : execute_move cmd s adv loc tbl now = .ok (res, tbl2)) :
    (res.success = false ∧ res.location_changed = false ∧ tbl2 = tbl) ∨
    (res.success = true ∧ res.location_changed = true ∧
      ∃ t e s0, truthy cmd.target = some t ∧ List.lookup t loc.exits = some e ∧
        e.locked = false ∧ get_session tbl s.id = some s0 ∧
        tbl2 = save_session tbl
          { s0 with current_location_id := e.location_id
                    visited_locations := setInsert s0.visited_locations e.location_id }
          now) := by
  unfold execute_move at h
  split at h
  · cases h
    exact Or.inl ⟨rfl, rfl, rfl⟩
  · rename_i t ht
    split at h
    · cases h
      exact Or.inl ⟨rfl, rfl, rfl⟩
    · rename_i e he
      split at h
      · split at h
        · cases h
          exact Or.inl ⟨rfl, rfl, rfl⟩
        · cases h
          exact Or.inl ⟨rfl, rfl, rfl⟩
      · rename_i hlock
        split at h
        · cases h
        · rename_i g tbl3 hmv
          cases h
          obtain ⟨s0, hs0, _, htbl⟩ := move_to_location_ok _ _ _ _ _ _ hmv
          exact Or.inr ⟨rfl, rfl, t, e, s0, ht, he, by simpa using hlock, hs0, htbl⟩

theorem execute_take_post (cmd : GameCommand) (s : GameSession) (adv : Adventure)
    (loc : Location) (tbl : List GameSession) (now : Nat)
    (res : CommandResult) (tbl2 : List GameSession)
    (h : execute_take cmd s adv loc tbl now = .ok (res, tbl2)) :
    (res.success = false ∧ res.inventory_changed = false ∧ tbl2 = tbl) ∨
    (res.success = true ∧ res.inventory_changed = true ∧
      ∃ t item tbl1 g1 g2, truthy cmd.target = some t ∧
        find_item_in_location loc t = some item ∧
        item.takeable = true ∧ ¬ item.id ∈ s.inventory ∧
        add_item tbl s.id item.id now = .ok (g1, tbl1) ∧
        set_location_flag tbl1 s.id loc.id ("item_taken_" ++ item.id) true now =
          .ok (g2, tbl2)) := by
  unfold execute_take at h
  split at h
  · split at h
    · cases h
      exact Or.inl ⟨rfl, rfl, rfl⟩
    · cases h
      exact Or.inl ⟨rfl, rfl, rfl⟩
  · rename_i t ht
    split at h
    · cases h
      exact Or.inl ⟨rfl, rfl, rfl⟩
    · rename_i item hitem
      split at h
      · cases h
        exact Or.inl ⟨rfl, rfl, rfl⟩
      · rename_i htk
        split at h
        · cases h
          exact Or.inl ⟨rfl, rfl, rfl⟩
        · rename_i hni
          split at h
          · cases h
          · rename_i g1 tbl1 hadd
            split at h
            · cases h
            · rename_i g2 tbl3 hflag
              cases h
              exact Or.inr ⟨rfl, rfl, t, item, _, _, _, ht, hitem,
                by simpa using htk, hni, hadd, hflag⟩

theorem execute_drop_post (cmd : GameCommand) (s : GameSession) (adv : Adventure)
    (loc : Location) (tbl : List GameSession) (now : Nat)
    (res : CommandResult) (tbl2 : List GameSession)
    (h : execute_drop cmd s adv loc tbl now = .ok (res, tbl2)) :
    (res.success = false ∧ res.inventory_changed = false ∧ tbl2 = tbl) ∨
    (res.success = true ∧ res.inventory_changed = true ∧
      ∃ t iid g, truthy cmd.target = some t ∧
        s.inventory.find? (fun inv_item_id =>
          strContains (pyLower inv_item_id) (pyLower t)) = some iid ∧
        remove_item tbl s.id iid now = .ok (g, tbl2)) := by
  unfold execute_drop at h
  split at h
  · split at h
    · cases h
      exact Or.inl ⟨rfl, rfl, rfl⟩
    · cases h
      exact Or.inl ⟨rfl, rfl, rfl⟩
  · rename_i t ht
    split at h
    · cases h
      exact Or.inl ⟨rfl, rfl, rfl⟩
    · rename_i iid hiid
      split at h
      · cases h
      · rename_i g tbl3 hrem
        cases h
        exact Or.inr ⟨rfl, rfl, t, iid, _, ht, hiid, hrem⟩

theorem execute_examine_post (cmd : GameCommand) (s : GameSession) (adv : Adventure)
    (loc : Location) (tbl : List GameSession) (now : Nat)
    (res : CommandResult) (tbl2 : List GameSession)
    (h : execute_examine cmd s adv loc tbl now = .ok (res, tbl2)) :
    tbl2 = tbl := by
  unfold execute_examine at h
  split at h
  · cases h
    rfl
  · split at h
    · cases h
      rfl
    · split at h
      · cases h
        rfl
      · cases h
        rfl

theorem execute_use_post (cmd : GameCommand) (s : GameSession) (adv : Adventure)
    (loc : Location) (tbl : List GameSession) (now : Nat)
    (res : CommandResult) (tbl2 : List GameSession)
    (h : execute_use cmd s adv loc tbl now = .ok (res, tbl2)) :
    tbl2 = tbl := by
  unfold execute_use at h
  split at h
  · cases h
    rfl
  · split at h
    · cases h
      rfl
    · split at h
      · cases h
        rfl
      · cases h
        rfl

theorem execute_look_post (cmd : GameCommand) (s : GameSession) (adv : Adventure)
    (loc : Location) (tbl : List GameSession) (now : Nat)
    (res : CommandResult) (tbl2 : List GameSession)
    (h : execute_look cmd s adv loc tbl now = .ok (res, tbl2)) :
    res.success = true ∧ tbl2 = tbl := by
  cases h
  exact ⟨rfl, rfl⟩

theorem execute_inventory_post (cmd : GameCommand) (s : GameSession) (adv : Adventure)
    (loc : Location) (tbl : List GameSession) (now : Nat)
    (res : CommandResult) (tbl2 : List GameSession)
    (h : execute_inventory cmd s adv loc tbl now = .ok (res, tbl2)) :
    res.success = true ∧ tbl2 = tbl := by
  unfold execute_inventory at h
  split at h
  · cases h
    exact ⟨rfl, rfl⟩
  · cases h
    exact ⟨rfl, rfl⟩

theorem execute_help_post (cmd : GameCommand) (s : GameSession) (adv : Adventure)
    (loc : Location) (tbl : List GameSession) (now : Nat)
    (res : CommandResult) (tbl2 : List GameSession)
    (h : execute_help cmd s adv loc tbl now = .ok (res, tbl2)) :
    res.success = true ∧ tbl2 = tbl := by
  cases h
  exact ⟨rfl, rfl⟩

theorem execute_unknown_post (cmd : GameCommand) (s : GameSession) (adv : Adventure)
    (loc : Location) (tbl : List GameSession) (now : Nat)
    (res : CommandResult) (tbl2 : List GameSession)
    (h : execute_unknown cmd s adv loc tbl now = .ok (res, tbl2)) :
    res.success = false ∧ tbl2 = tbl := by
  cases h
  exact ⟨rfl, rfl⟩

theorem execute_post (cmd : GameCommand) (sid : String) (advs : List Adventure)
    (tbl : List GameSession) (now : Nat) (res : CommandResult)
    (tbl2 : List GameSession)
    (h : execute cmd sid advs tbl now = .ok (res, tbl2)) :
    (res.success = false ∧ tbl2 = tbl) ∨
    (res.success = true ∧
      ((¬ cmd.type = CommandType.move ∧ tbl2 = tbl) ∨
        (∃ s s2, get_session tbl sid = some s ∧ get_session tbl2 sid = some s2 ∧
          (∀ x ∈ s.visited_locations, x ∈ s2.visited_locations) ∧
          ((∃ adv loc t e, cmd.type = CommandType.move ∧
              get_adventure advs s.adventure_id = some adv ∧
              get_location adv s.current_location_id = some loc ∧
              truthy cmd.target = some t ∧
              List.lookup t loc.exits = some e ∧ e.locked = false ∧
              s2.current_location_id = e.location_id) ∨
            (¬ cmd.type = CommandType.move ∧
              s2.current_location_id = s.current_location_id))))) := by
  unfold execute at h
  split at h
  · cases h
    exact Or.inl ⟨rfl, rfl⟩
  · rename_i s hs
    split at h
    · cases h
      exact Or.inl ⟨rfl, rfl⟩
    · rename_i adv hadv
      split at h
      · cases h
        exact Or.inl ⟨rfl, rfl⟩
      · rename_i loc hloc
        have hsid : s.id = sid := get_session_id _ _ _ hs
        split at h
        all_goals rename_i htype
        -- move
        · rcases execute_move_post _ _ _ _ _ _ _ _ h with
            ⟨h1, _, h3⟩ | ⟨h1, _, t, e, s0, ht, he, hlk, hs0, htbl⟩
          · exact Or.inl ⟨h1, h3⟩
          · rw [hsid, hs] at hs0
            have hse : s0 = s := (Option.some.inj hs0).symm
            rw [hse] at htbl
            obtain ⟨s2, hget2, hvis, hcur⟩ :
                ∃ s2, get_session tbl2 sid = some s2 ∧
                  (∀ x ∈ s.visited_locations, x ∈ s2.visited_locations) ∧
                  s2.current_location_id = e.location_id := by
              rw [htbl]
              exact ⟨_, get_session_save_self _ _ _ _ hsid,
                fun x hx => setInsert_mem _ _ _ hx, rfl⟩
            exact Or.inr ⟨h1, Or.inr ⟨s, s2, hs, hget2, hvis,
              Or.inl ⟨adv, loc, t, e, htype, hadv, hloc, ht, he, hlk, hcur⟩⟩⟩
        -- take
        · rcases execute_take_post _ _ _ _ _ _ _ _ h with
            ⟨h1, _, h3⟩ | ⟨h1, _, t, item, tbl1, g1, g2, ht, hitem, htk, hni, hadd, hflag⟩
          · exact Or.inl ⟨h1, h3⟩
          · obtain ⟨sa, hsa, _, htbl1⟩ := add_item_ok _ _ _ _ _ _ hadd
            rw [hsid, hs] at hsa
            have hsae : sa = s := (Option.some.inj hsa).symm
            rw [hsae, if_neg hni] at htbl1
            obtain ⟨sb, hsb, _, htbl2⟩ := set_location_flag_ok _ _ _ _ _ _ _ _ hflag
            rw [htbl1] at hsb
            rw [get_session_save_self tbl
              { s with inventory := s.inventory ++ [item.id] } now s.id rfl] at hsb
            have hsbe : sb =
                refresh { s with inventory := s.inventory ++ [item.id] } now :=
              (Option.some.inj hsb).symm
            rw [hsbe] at htbl2
            obtain ⟨s2, hget2, hvis, hcur⟩ :
                ∃ s2, get_session tbl2 sid = some s2 ∧
                  (∀ x ∈ s.visited_locations, x ∈ s2.visited_locations) ∧
                  s2.current_location_id = s.current_location_id := by
              rw [htbl2]
              exact ⟨_, get_session_save_self _ _ _ _ hsid, fun x hx => hx, rfl⟩
            exact Or.inr ⟨h1, Or.inr ⟨s, s2, hs, hget2, hvis,
              Or.inr ⟨by simp [htype], hcur⟩⟩⟩
        -- drop
        · rcases execute_drop_post _ _ _ _ _ _ _ _ h with
            ⟨h1, _, h3⟩ | ⟨h1, _, t, iid, g, ht, hiid, hrem⟩
          · exact Or.inl ⟨h1, h3⟩
          · obtain ⟨sa, hsa, hmem, _, htbl2⟩ := remove_item_ok _ _ _ _ _ _ hrem
            rw [hsid, hs] at hsa
            have hsae : sa = s := (Option.some.inj hsa).symm
            rw [hsae] at htbl2
            obtain ⟨s2, hget2, hvis, hcur⟩ :
                ∃ s2, get_session tbl2 sid = some s2 ∧
                  (∀ x ∈ s.visited_locations, x ∈ s2.visited_locations) ∧
                  s2.current_location_id = s.current_location_id := by
              rw [htbl2]
              exact ⟨_, get_session_save_self _ _ _ _ hsid, fun x hx => hx, rfl⟩
            exact Or.inr ⟨h1, Or.inr ⟨s, s2, hs, hget2, hvis,
              Or.inr ⟨by simp [htype], hcur⟩⟩⟩
        -- examine
        · have htbl := execute_examine_post _ _ _ _ _ _ _ _ h
          cases hres : res.success
          · exact Or.inl ⟨rfl, htbl⟩
          · exact Or.inr ⟨rfl, Or.inl ⟨by simp [htype], htbl⟩⟩
        -- use
        · have htbl := execute_use_post _ _ _ _ _ _ _ _ h
          cases hres : res.success
          · exact Or.inl ⟨rfl, htbl⟩
          · exact Or.inr ⟨rfl, Or.inl ⟨by simp [htype], htbl⟩⟩
        -- look
        · obtain ⟨h1, htbl⟩ := execute_look_post _ _ _ _ _ _ _ _ h
          exact Or.inr ⟨h1, Or.inl ⟨by simp [htype], htbl⟩⟩
        -- inventory
        · obtain ⟨h1, htbl⟩ := execute_inventory_post _ _ _ _ _ _ _ _ h
          exact Or.inr ⟨h1, Or.inl ⟨by simp [htype], htbl⟩⟩
        -- help
        · obtain ⟨h1, htbl⟩ := execute_help_post _ _ _ _ _ _ _ _ h
          exact Or.inr ⟨h1, Or.inl ⟨by simp [htype], htbl⟩⟩
        -- unknown
        · obtain ⟨h1, htbl⟩ := execute_unknown_post _ _ _ _ _ _ _ _ h
          exact Or.inl ⟨h1, htbl⟩

theorem isPrefixList_refl (n : List Char) : isPrefixList n n = true := by
  induction n with
  | nil => rfl
  | cons c t ih => simp [isPrefixList, ih]

theorem isPrefixList_append (n b : List Char) : isPrefixList n (n ++ b) = true := by
  induction n with
  | nil => rfl
  | cons c t ih => simp [isPrefixList, ih]

theorem isPrefixList_extend (n l b : List Char) (h : isPrefixList n l = true) :
    isPrefixList n (l ++ b) = true := by
  induction n generalizing l with
  | nil => rfl
  | cons c t ih =>
    cases l with
    | nil => cases h
    | cons d m =>
      simp only [isPrefixList, Bool.and_eq_true] at h
      simp [isPrefixList, h.1, ih m h.2]

theorem isSubList_of_prefix (n l : List Char) (h : isPrefixList n l = true) :
    isSubList n l = true := by
  cases l with
  | nil =>
    cases n with
    | nil => rfl
    | cons c t => cases h
  | cons c t => simp [isSubList, h]

theorem isSubList_cons (n l : List Char) (c : Char) (h : isSubList n l = true) :
    isSubList n (c :: l) = true := by
  simp [isSubList, h]

theorem isSubList_append_left (n a l : List Char) (h : isSubList n l = true) :
    isSubList n (a ++ l) = true := by
  induction a with
  | nil => exact h
  | cons c t ih => exact isSubList_cons _ _ _ ih

theorem isSubList_append_right (n l b : List Char) (h : isSubList n l = true) :
    isSubList n (l ++ b) = true := by
  induction l with
  | nil =>
    simp only [isSubList, List.isEmpty_iff] at h
    subst h
    cases b with
    | nil => rfl
    | cons c t => simp [isSubList, isPrefixList]
  | cons c t ih =>
    simp only [isSubList, Bool.or_eq_true] at h
    rcases h with h | h
    · simp only [List.cons_append]
      exact isSubList_of_prefix _ _ (isPrefixList_extend _ _ _ h)
    · exact isSubList_cons _ _ _ (ih h)

theorem isSubList_self (n : List Char) : isSubList n n = true :=
  isSubList_of_prefix _ _ (isPrefixList_refl n)

theorem strContains_append_mid (a x b : String) :
    strContains ((a ++ x) ++ b) x = true := by
  unfold strContains
  simp only [String.data_append]
  exact isSubList_append_right _ _ _ (isSubList_append_left _ _ _ (isSubList_self x.data))

theorem get_session_save_mem (tbl : List GameSession) (u : GameSession)
    (now : Nat) (sid : String) (s2 : GameSession)
    (hget : get_session (save_session tbl u now) sid = some s2)
    (hid : u.id = sid)
    (x : String) (hx : x ∈ u.visited_locations) : x ∈ s2.visited_locations := by
  rw [get_session_save_self _ _ _ _ hid] at hget
  have he : s2 = refresh u now := (Option.some.inj hget).symm
  rw [he]
  exact hx

theorem runOp_vis (sid : String) (v : List String) (op : StoreOp)
    (tbl : List GameSession)
    (hP : ∀ s, get_session tbl sid = some s → ∀ x ∈ v, x ∈ s.visited_locations) :
    ∀ s2, get_session (runOp sid tbl op) sid = some s2 →
      ∀ x ∈ v, x ∈ s2.visited_locations := by
  cases op with
  | moveLoc lid now =>
    intro s2 hget x hx
    simp only [runOp] at hget
    split at hget
    · rename_i g tblx hmv
      obtain ⟨s0, hs0, _, htbl⟩ := move_to_location_ok _ _ _ _ _ _ hmv
      have hid : s0.id = sid := get_session_id _ _ _ hs0
      rw [htbl] at hget
      exact get_session_save_mem _ _ _ _ _ hget hid x
        (setInsert_mem _ _ _ (hP s0 hs0 x hx))
    · exact hP s2 hget x hx
  | addItem iid now =>
    intro s2 hget x hx
    simp only [runOp] at hget
    split at hget
    · rename_i g tblx hadd
      obtain ⟨s0, hs0, _, htbl⟩ := add_item_ok _ _ _ _ _ _ hadd
      have hid : s0.id = sid := get_session_id _ _ _ hs0
      by_cases hmem : iid ∈ s0.inventory
      · rw [if_pos hmem] at htbl
        rw [htbl] at hget
        exact get_session_save_mem _ _ _ _ _ hget hid x (hP s0 hs0 x hx)
      · rw [if_neg hmem] at htbl
        rw [htbl] at hget
        exact get_session_save_mem _ _ _ _ _ hget hid x (hP s0 hs0 x hx)
    · exact hP s2 hget x hx
  | removeItem iid now =>
    intro s2 hget x hx
    simp only [runOp] at hget
    split at hget
    · rename_i g tblx hrem
      obtain ⟨s0, hs0, _, _, htbl⟩ := remove_item_ok _ _ _ _ _ _ hrem
      have hid : s0.id = sid := get_session_id _ _ _ hs0
      rw [htbl] at hget
      exact get_session_save_mem _ _ _ _ _ hget hid x (hP s0 hs0 x hx)
    · exact hP s2 hget x hx
  | setLocFlag lid fname val now =>
    intro s2 hget x hx
    simp only [runOp] at hget
    split at hget
    · rename_i g tblx hflag
      obtain ⟨s0, hs0, _, htbl⟩ := set_location_flag_ok _ _ _ _ _ _ _ _ hflag
      have hid : s0.id = sid := get_session_id _ _ _ hs0
      rw [htbl] at hget
      exact get_session_save_mem _ _ _ _ _ hget hid x (hP s0 hs0 x hx)
    · exact hP s2 hget x hx
  | setGlobFlag fname val now =>
    intro s2 hget x hx
    simp only [runOp] at hget
    split at hget
    · rename_i g tblx hflag
      obtain ⟨s0, hs0, _, htbl⟩ := set_global_flag_ok _ _ _ _ _ _ _ hflag
      have hid : s0.id = sid := get_session_id _ _ _ hs0
      rw [htbl] at hget
      exact get_session_save_mem _ _ _ _ _ hget hid x (hP s0 hs0 x hx)
    · exact hP s2 hget x hx
  | deleteSession =>
    intro s2 hget
    rw [show runOp sid tbl StoreOp.deleteSession = delete_session tbl sid from rfl,
      get_session_delete_self] at hget
    cases hget
  | exec cmd advs now =>
    intro s2 hget x hx
    simp only [runOp] at hget
    split at hget
    · rename_i r tblx hex
      rcases execute_post _ _ _ _ _ _ _ hex with ⟨_, htbl⟩ | ⟨_, hrest⟩
      · rw [htbl] at hget
        exact hP s2 hget x hx
      · rcases hrest with ⟨_, htbl⟩ | ⟨s, s2x, hs, hget2, hvis, _⟩
        · rw [htbl] at hget
          exact hP s2 hget x hx
        · have he : s2x = s2 := Option.some.inj (hget2.symm.trans hget)
          rw [← he]
          exact hvis x (hP s hs x hx)
    · exact hP s2 hget x hx

theorem runOps_vis (sid : String) (v : List String) (ops : List StoreOp) :
    ∀ tbl : List GameSession,
      (∀ s, get_session tbl sid = some s → ∀ x ∈ v, x ∈ s.visited_locations) →
      ∀ s2, get_session (runOps sid tbl ops) sid = some s2 →
        ∀ x ∈ v, x ∈ s2.visited_locations := by
  induction ops with
  | nil => exact fun tbl hP => hP
  | cons op rest ih =>
    intro tbl hP
    exact ih (runOp sid tbl op) (runOp_vis sid v op tbl hP)

theorem find?_congr {α : Type} (p q : α → Bool) (l : List α)
    (hpq : ∀ a, p a = q a) : l.find? p = l.find? q := by
  induction l with
  | nil => rfl
  | cons x t ih =>
    cases hq : q x with
    | false =>
      rw [List.find?_cons_of_neg _ (by rw [hpq]; simp [hq]),
        List.find?_cons_of_neg _ (by simp [hq])]
      exact ih
    | true =>
      rw [List.find?_cons_of_pos _ (by rw [hpq]; exact hq),
        List.find?_cons_of_pos _ hq]

theorem beq_comm_str (a b : String) : (a == b) = (b == a) := by
  by_cases h : a = b
  · rw [h]
  · have h1 : (a == b) = false := by simp [h]
    have h2 : (b == a) = false := by
      simp only [beq_eq_false_iff_ne]
      exact fun hh => h hh.symm
    rw [h1, h2]

theorem isSome_of_get_location (adv : Adventure) (lid : String) (loc : Location)
    (h : get_location adv lid = some loc) :
    (List.lookup lid adv.locations).isSome = true := by
  unfold get_location at h
  rw [h]
  rfl

theorem strContains_of_chunk (pre mid post : String) (n : String)
    (h : isSubList n.data mid.data = true) :
    strContains ((pre ++ mid) ++ post) n = true := by
  unfold strContains
  simp only [String.data_append]
  exact isSubList_append_right _ _ _ (isSubList_append_left _ _ _ h)

/-- Claim C4: round-trip of `save_session` followed by `get_session` on the
saved session's id returns the session unchanged on every mutable field,
with only the update and last-played timestamps refreshed to the save-time
clock, despite the set-to-list and datetime-to-string serialization (both
bijections on the engine's data, modelled as identities). -/
theorem claim_C4 (tbl : List GameSession) (s : GameSession) (now : Nat) :
    get_session (save_session tbl s now) s.id =
      some { s with updated_at := now, last_played_at := now } :=
  get_session_save_self tbl s now s.id rfl

/-- Claim C10: failure atomicity of the executor: whenever `execute`
returns a result with `success = false` (missing session, adventure or
location, unknown command, or any validation failure in a handler), the
session table is returned unchanged: no store write happens on any
failure path. -/
theorem claim_C10 (cmd : GameCommand) (session_id : String)
    (adventures : List Adventure) (tbl : List GameSession) (now : Nat)
    (res : CommandResult) (tbl2 : List GameSession)
    (h : execute cmd session_id adventures tbl now = .ok (res, tbl2))
    (hfail : res.success = false) : tbl2 = tbl := by
  rcases execute_post _ _ _ _ _ _ _ h with ⟨_, htbl⟩ | ⟨hsucc, _⟩
  · exact htbl
  · rw [hfail] at hsucc
    cases hsucc

theorem claim_C10_witness :
    execute { type := CommandType.unknown, raw_input := "zz" } "sid1" [wAdv] wTbl 5 =
      .ok ({ success := false
             message := "I don't understand 'zz'. Type 'help' for assistance." }, wTbl) ∧
    wTbl = wTbl :=
  ⟨by decide, claim_C10 { type := CommandType.unknown, raw_input := "zz" } "sid1"
    [wAdv] wTbl 5
    { success := false
      message := "I don't understand 'zz'. Type 'help' for assistance." } wTbl
    (by decide) (by decide)⟩

/-- Claim C9: idempotence of the read-only commands: with the session,
adventure and current location resolvable, executing a `look` or
`inventory` command returns `success = true` and leaves the session table
(and hence every field of the stored session) unchanged, and repeating
the execution any number of times keeps the table fixed. -/
theorem claim_C9 (cmd : GameCommand) (session_id : String)
    (adventures : List Adventure) (tbl : List GameSession) (now : Nat)
    (s : GameSession) (adv : Adventure) (loc : Location)
    (res : CommandResult) (tbl2 : List GameSession)
    (hs : get_session tbl session_id = some s)
    (hadv : get_adventure adventures s.adventure_id = some adv)
    (hloc : get_location adv s.current_location_id = some loc)
    (hcmd : cmd.type = CommandType.look ∨ cmd.type = CommandType.inventory)
    (h : execute cmd session_id adventures tbl now = .ok (res, tbl2)) :
    res.success = true ∧ tbl2 = tbl ∧
      ∀ k : Nat, (fun t => match execute cmd session_id adventures t now with
        | .ok (_, t2) => t2
        | .error _ => t)^[k] tbl = tbl := by
  have hpost : res.success = true ∧ tbl2 = tbl := by
    unfold execute at h
    simp only [hs, hadv, hloc] at h
    rcases hcmd with htype | htype
    · rw [htype] at h
      exact execute_look_post _ _ _ _ _ _ _ _ h
    · rw [htype] at h
      exact execute_inventory_post _ _ _ _ _ _ _ _ h
  refine ⟨hpost.1, hpost.2, fun k => Function.iterate_fixed ?_ k⟩
  show (match execute cmd session_id adventures tbl now with
    | .ok (_, t2) => t2
    | .error _ => tbl) = tbl
  rw [h]
  exact hpost.2

theorem claim_C9_witness :
    get_session wTbl "sid1" = some wSession ∧
    execute { type := CommandType.look, raw_input := "look" } "sid1" [wAdv] wTbl 5 =
      .ok ({ success := true
             message := "Room One\n\nFirst room.\n\nVisible exits: north, east\n\nYou can see: Sword" },
        wTbl) ∧
    (({ success := true
        message := "Room One\n\nFirst room.\n\nVisible exits: north, east\n\nYou can see: Sword" } :
        CommandResult).success = true ∧ wTbl = wTbl) ∧
    (fun t => match execute { type := CommandType.look, raw_input := "look" }
        "sid1" [wAdv] t 5 with
      | .ok (_, t2) => t2
      | .error _ => t)^[3] wTbl = wTbl :=
  ⟨by decide, by decide,
    ⟨(claim_C9 { type := CommandType.look, raw_input := "look" } "sid1" [wAdv] wTbl 5
      wSession wAdv wRoom1
      { success := true
        message := "Room One\n\nFirst room.\n\nVisible exits: north, east\n\nYou can see: Sword" }
      wTbl (by decide) (by decide) (by decide)
      (Or.inl rfl) (by decide)).1,
     (claim_C9 { type := CommandType.look, raw_input := "look" } "sid1" [wAdv] wTbl 5
      wSession wAdv wRoom1
      { success := true
        message := "Room One\n\nFirst room.\n\nVisible exits: north, east\n\nYou can see: Sword" }
      wTbl (by decide) (by decide) (by decide)
      (Or.inl rfl) (by decide)).2.1⟩,
    (claim_C9 { type := CommandType.look, raw_input := "look" } "sid1" [wAdv] wTbl 5
      wSession wAdv wRoom1
      { success := true
        message := "Room One\n\nFirst room.\n\nVisible exits: north, east\n\nYou can see: Sword" }
      wTbl (by decide) (by decide) (by decide)
      (Or.inl rfl) (by decide)).2.2 3⟩

/-- Claim C3: inventory set semantics: (a) a take command whose matched
item id is already in the inventory fails and leaves the session table
unchanged; (b) after any `add_item`, every item id still occurs at most
once in the inventory (given it occurred at most once before); (c)
`remove_item` deletes exactly one occurrence of the removed id and leaves
the count of every other id unchanged. -/
theorem claim_C3 :
    (∀ (cmd : GameCommand) (s : GameSession) (adv : Adventure) (loc : Location)
        (tbl : List GameSession) (now : Nat) (res : CommandResult)
        (tbl2 : List GameSession) (t : String) (item : Item),
      execute_take cmd s adv loc tbl now = .ok (res, tbl2) →
      truthy cmd.target = some t →
      find_item_in_location loc t = some item →
      item.id ∈ s.inventory →
      res.success = false ∧ tbl2 = tbl) ∧
    (∀ (tbl : List GameSession) (session_id item_id : String) (now : Nat)
        (s s2 : GameSession) (tbl2 : List GameSession) (x : String),
      get_session tbl session_id = some s →
      add_item tbl session_id item_id now = .ok (s2, tbl2) →
      s.inventory.count x ≤ 1 → s2.inventory.count x ≤ 1) ∧
    (∀ (tbl : List GameSession) (session_id item_id : String) (now : Nat)
        (s s2 : GameSession) (tbl2 : List GameSession),
      get_session tbl session_id = some s →
      remove_item tbl session_id item_id now = .ok (s2, tbl2) →
      s2.inventory.count item_id + 1 = s.inventory.count item_id ∧
        ∀ x, ¬ x = item_id → s2.inventory.count x = s.inventory.count x) := by
  refine ⟨?_, ?_, ?_⟩
  · intro cmd s adv loc tbl now res tbl2 t item hexec ht hfind hmem
    unfold execute_take at hexec
    simp only [ht, hfind] at hexec
    by_cases htk : item.takeable = true
    · simp only [htk, Bool.not_true, if_pos hmem] at hexec
      cases hexec
      exact ⟨rfl, rfl⟩
    · simp only [Bool.not_eq_true] at htk
      simp only [htk, Bool.not_false] at hexec
      cases hexec
      exact ⟨rfl, rfl⟩
  · intro tbl sid iid now s s2 tbl2 x hget hadd hcount
    obtain ⟨s0, hs0, hs2, _⟩ := add_item_ok _ _ _ _ _ _ hadd
    have he : s0 = s := Option.some.inj (hs0.symm.trans hget)
    rw [he] at hs2
    by_cases hmem : iid ∈ s.inventory
    · rw [if_pos hmem] at hs2
      rw [hs2]
      exact hcount
    · rw [if_neg hmem] at hs2
      rw [hs2]
      show (s.inventory ++ [iid]).count x ≤ 1
      rw [List.count_append]
      by_cases hx : x = iid
      · have h0 : s.inventory.count x = 0 := by
          rw [List.count_eq_zero]
          rw [hx]
          exact hmem
        rw [h0, hx]
        simp
      · have h1 : ([iid] : List String).count x = 0 := by
          rw [List.count_eq_zero]
          simp [hx]
        rw [h1]
        omega
  · intro tbl sid iid now s s2 tbl2 hget hrem
    obtain ⟨s0, hs0, hmem, hs2, _⟩ := remove_item_ok _ _ _ _ _ _ hrem
    have he : s0 = s := Option.some.inj (hs0.symm.trans hget)
    rw [he] at hs2 hmem
    constructor
    · rw [hs2]
      show (s.inventory.erase iid).count iid + 1 = s.inventory.count iid
      rw [List.count_erase_self]
      have hpos : 0 < s.inventory.count iid := List.count_pos_iff.mpr hmem
      omega
    · intro x hx
      rw [hs2]
      show (s.inventory.erase iid).count x = s.inventory.count x
      exact List.count_erase_of_ne hx _

theorem claim_C3_witness :
    (execute_take { type := CommandType.take, target := some "sword", raw_input := "take sword" }
        wSessionSword wAdv wRoom1 wTblSword 5 =
      .ok ({ success := false, message := "You already have the Sword." }, wTblSword)) ∧
    (({ success := false, message := "You already have the Sword." } : CommandResult).success
        = false ∧ wTblSword = wTblSword) ∧
    List.count "sword" ["lamp", "sword"] ≤ 1 ∧
    (List.count "lamp" ([] : List String) + 1 = List.count "lamp" ["lamp"]) ∧
    List.count "zz" ([] : List String) = List.count "zz" ["lamp"] := by
  refine ⟨by decide, ?_, ?_, ?_, ?_⟩
  · exact claim_C3.1 { type := CommandType.take, target := some "sword", raw_input := "take sword" }
      wSessionSword wAdv wRoom1 wTblSword 5
      { success := false, message := "You already have the Sword." } wTblSword
      "sword" wSword (by decide) (by decide) (by decide) (by decide)
  · exact claim_C3.2.1 wTbl "sid1" "sword" 5 wSession
      (refresh { wSession with inventory := wSession.inventory ++ ["sword"] } 5)
      (save_session wTbl { wSession with inventory := wSession.inventory ++ ["sword"] } 5)
      "sword" (by decide) (by decide) (by decide)
  · exact (claim_C3.2.2 wTbl "sid1" "lamp" 5 wSession
      (refresh { wSession with inventory := wSession.inventory.erase "lamp" } 5)
      (save_session wTbl { wSession with inventory := wSession.inventory.erase "lamp" } 5)
      (by decide) (by decide)).1
  · exact (claim_C3.2.2 wTbl "sid1" "lamp" 5 wSession
      (refresh { wSession with inventory := wSession.inventory.erase "lamp" } 5)
      (save_session wTbl { wSession with inventory := wSession.inventory.erase "lamp" } 5)
      (by decide) (by decide)).2 "zz" (by decide)

/-- Claim C7 (amended): the take-target matcher scans the location's items
in list order with the first match winning; an item matches exactly when it
is visible and the target equals the display name case-insensitively, or
is a case-insensitive substring of the display name, or is a
case-insensitive (amended from the claim's case-sensitive "exact") match
of the item id; invisible items never match. -/
theorem claim_C7 (location : Location) (target : String) :
    find_item_in_location location target =
      location.items.find? (fun item => item.visible && specTakeMatchAmended target item) ∧
    ∀ item, find_item_in_location location target = some item → item.visible = true := by
  constructor
  · simp only [find_item_in_location, specTakeMatchAmended]
    apply find?_congr
    intro item
    rw [beq_comm_str (pyLower item.name) (pyLower target),
      beq_comm_str (pyLower item.id) (pyLower target)]
  · intro item h
    simp only [find_item_in_location] at h
    have := List.find?_some h
    simp only [Bool.and_eq_true] at this
    exact this.1

/-- Claim C7 counterexample: with target `"KEY"` and an item of id `"key"`
whose display name shares nothing with the target, the code matches the
item (its id comparison is case-insensitive), while the claim's matching
policy — which requires an exact id match — matches nothing. -/
theorem claim_C7_counterexample :
    find_item_in_location ceLoc "KEY" = some ceItem ∧
    specTakeMatch "KEY" ceItem = false ∧
    ceLoc.items.find? (fun item => item.visible && specTakeMatch "KEY" item) = none := by
  refine ⟨?_, ?_, ?_⟩ <;> decide

theorem claim_C7_witness :
    (find_item_in_location wRoom1 "SWORD" =
      List.find? (fun item => item.visible && specTakeMatchAmended "SWORD" item)
        wRoom1.items) ∧
    wSword.visible = true :=
  ⟨(claim_C7 wRoom1 "SWORD").1, (claim_C7 wRoom1 "SWORD").2 wSword (by decide)⟩

theorem isSubList_nil (l : List Char) : isSubList [] l = true := by
  cases l with
  | nil => rfl
  | cons c t => simp [isSubList, isPrefixList]

/-- Claim C8: a move command whose target matches a locked exit fails with
`location_changed = false`, a message containing "locked" that also names
the exit's `required_item` when one is set, and no store write, whatever
the session's inventory holds (the executor never consults the inventory
on this path). -/
theorem claim_C8 (cmd : GameCommand) (session_id : String)
    (adventures : List Adventure) (tbl : List GameSession) (now : Nat)
    (s : GameSession) (adv : Adventure) (loc : Location) (t : String) (e : Exit)
    (res : CommandResult) (tbl2 : List GameSession)
    (hs : get_session tbl session_id = some s)
    (hadv : get_adventure adventures s.adventure_id = some adv)
    (hloc : get_location adv s.current_location_id = some loc)
    (htype : cmd.type = CommandType.move)
    (ht : truthy cmd.target = some t)
    (he : List.lookup t loc.exits = some e)
    (hlock : e.locked = true)
    (h : execute cmd session_id adventures tbl now = .ok (res, tbl2)) :
    res.success = false ∧ res.location_changed = false ∧
      strContains res.message "locked" = true ∧
      e.required_item.all (fun ri => strContains res.message ri) = true ∧
      tbl2 = tbl := by
  unfold execute at h
  simp only [hs, hadv, hloc, htype] at h
  unfold execute_move at h
  simp only [ht, he, hlock, if_true] at h
  cases hri : truthy e.required_item with
  | some ri =>
    rw [hri] at h
    cases h
    have hrieq : e.required_item = some ri ∧ ¬ ri = "" := by
      unfold truthy at hri
      cases hreq : e.required_item with
      | none =>
        rw [hreq] at hri
        cases hri
      | some v =>
        rw [hreq] at hri
        have hri2 : (if v = "" then none else some v) = some ri := hri
        by_cases hv : v = ""
        · rw [if_pos hv] at hri2
          cases hri2
        · rw [if_neg hv] at hri2
          have hve : v = ri := Option.some.inj hri2
          rw [hve]
          exact ⟨rfl, hve ▸ hv⟩
    refine ⟨rfl, rfl, ?_, ?_, rfl⟩
    · show strContains ((("The " ++ t) ++ " exit is locked. You need ") ++ ri ++ ".")
        "locked" = true
      unfold strContains
      simp only [String.data_append]
      exact isSubList_append_right _ _ _ (isSubList_append_right _ _ _
        (isSubList_append_left _ _ _ (by decide)))
    · rw [hrieq.1]
      show strContains ((("The " ++ t) ++ " exit is locked. You need ") ++ ri ++ ".") ri = true
      unfold strContains
      simp only [String.data_append]
      exact isSubList_append_right _ _ _ (isSubList_append_left _ _ _ (isSubList_self _))
  | none =>
    rw [hri] at h
    cases h
    have hall : e.required_item.all (fun ri =>
        strContains (("The " ++ t) ++ " exit is locked.") ri) = true := by
      unfold truthy at hri
      cases hreq : e.required_item with
      | none => rfl
      | some v =>
        rw [hreq] at hri
        have hri2 : (if v = "" then none else some v) = (none : Option String) := hri
        by_cases hv : v = ""
        · show strContains (("The " ++ t) ++ " exit is locked.") v = true
          rw [hv]
          exact isSubList_nil _
        · rw [if_neg hv] at hri2
          cases hri2
    refine ⟨rfl, rfl, ?_, hall, rfl⟩
    show strContains (("The " ++ t) ++ " exit is locked.") "locked" = true
    unfold strContains
    simp only [String.data_append]
    exact isSubList_append_left _ _ _ (by decide)

theorem claim_C8_witness :
    execute { type := CommandType.move, target := some "east", raw_input := "go east" }
        "sid1" [wAdv] wTbl 5 =
      .ok ({ success := false, message := "The east exit is locked. You need key." }, wTbl) ∧
    (({ success := false, message := "The east exit is locked. You need key." } :
        CommandResult).success = false ∧
      ({ success := false, message := "The east exit is locked. You need key." } :
        CommandResult).location_changed = false ∧
      strContains "The east exit is locked. You need key." "locked" = true ∧
      (wExitE.required_item.all
        (fun ri => strContains "The east exit is locked. You need key." ri)) = true ∧
      wTbl = wTbl) :=
  ⟨by decide,
    claim_C8 { type := CommandType.move, target := some "east", raw_input := "go east" }
      "sid1" [wAdv] wTbl 5 wSession wAdv wRoom1 "east" wExitE
      { success := false, message := "The east exit is locked. You need key." } wTbl
      (by decide) (by decide) (by decide) (by decide) (by decide) (by decide)
      (by decide) (by decide)⟩

/-- Claim C1: with every exit of the session's adventure targeting a
location id present in the adventure's location map and the session's
current location id initially a key of that map, executing any command
leaves the stored session's current location id a key of that map; in
particular a successful move sets it to the matched exit's target
location id. -/
theorem claim_C1 (cmd : GameCommand) (session_id : String)
    (adventures : List Adventure) (tbl : List GameSession) (now : Nat)
    (s s2 : GameSession) (adv : Adventure) (loc : Location)
    (res : CommandResult) (tbl2 : List GameSession)
    (hs : get_session tbl session_id = some s)
    (hadv : get_adventure adventures s.adventure_id = some adv)
    (hloc : get_location adv s.current_location_id = some loc)
    (hclosed : exitsClosed adv)
    (h : execute cmd session_id adventures tbl now = .ok (res, tbl2))
    (hs2 : get_session tbl2 session_id = some s2) :
    (List.lookup s2.current_location_id adv.locations).isSome = true ∧
    (cmd.type = CommandType.move → res.success = true →
      ∃ t e, truthy cmd.target = some t ∧ List.lookup t loc.exits = some e ∧
        s2.current_location_id = e.location_id) := by
  rcases execute_post _ _ _ _ _ _ _ h with ⟨hfail, htbl⟩ | ⟨hsucc, hrest⟩
  · rw [htbl] at hs2
    have he2 : s2 = s := (Option.some.inj (hs.symm.trans hs2)).symm
    refine ⟨?_, ?_⟩
    · rw [he2]
      exact isSome_of_get_location _ _ _ hloc
    · intro _ hresT
      rw [hfail] at hresT
      cases hresT
  · rcases hrest with ⟨hnm, htbl⟩ | ⟨sx, s2x, hsx, hget2, _, hinner⟩
    · rw [htbl] at hs2
      have he2 : s2 = s := (Option.some.inj (hs.symm.trans hs2)).symm
      refine ⟨?_, ?_⟩
      · rw [he2]
        exact isSome_of_get_location _ _ _ hloc
      · intro hmove _
        exact absurd hmove hnm
    · have hex : sx = s := Option.some.inj (hsx.symm.trans hs)
      have hs2e : s2x = s2 := Option.some.inj (hget2.symm.trans hs2)
      rcases hinner with ⟨advx, locx, t, e, htype, hadvx, hlocx, ht, helk, hlk, hcur⟩ |
        ⟨hnm, hcur⟩
      · rw [hex] at hadvx hlocx
        have hadve : advx = adv := Option.some.inj (hadvx.symm.trans hadv)
        rw [hadve] at hlocx
        have hloce : locx = loc := Option.some.inj (hlocx.symm.trans hloc)
        rw [hloce] at helk
        rw [hs2e] at hcur
        refine ⟨?_, ?_⟩
        · rw [hcur]
          exact hclosed _ (lookup_mem _ _ _ (show List.lookup s.current_location_id
            adv.locations = some loc from hloc)) _ (lookup_mem _ _ _ helk)
        · intro _ _
          exact ⟨t, e, ht, helk, hcur⟩
      · rw [hex] at hcur
        rw [hs2e] at hcur
        refine ⟨?_, ?_⟩
        · rw [hcur]
          exact isSome_of_get_location _ _ _ hloc
        · intro hmove _
          exact absurd hmove hnm

theorem claim_C1_witness :
    exitsClosed wAdv ∧
    execute { type := CommandType.move, target := some "north", raw_input := "go north" }
        "sid1" [wAdv] wTbl 5 =
      .ok ({ success := true, message := "Room Two\n\nSecond room."
             location_changed := true },
        [{ wSession with current_location_id := "room2"
                         visited_locations := ["room1", "room2"]
                         updated_at := 5
                         last_played_at := 5 }]) ∧
    ((List.lookup ({ wSession with current_location_id := "room2"
                                   visited_locations := ["room1", "room2"]
                                   updated_at := 5
                                   last_played_at := 5 } :
        GameSession).current_location_id wAdv.locations).isSome = true ∧
      (({ type := CommandType.move, target := some "north", raw_input := "go north" } :
          GameCommand).type = CommandType.move →
        ({ success := true, message := "Room Two\n\nSecond room."
           location_changed := true } : CommandResult).success = true →
        ∃ t e, truthy ({ type := CommandType.move, target := some "north"
                         raw_input := "go north" } : GameCommand).target = some t ∧
          List.lookup t wRoom1.exits = some e ∧
          ({ wSession with current_location_id := "room2"
                           visited_locations := ["room1", "room2"]
                           updated_at := 5
                           last_played_at := 5 } :
            GameSession).current_location_id = e.location_id)) :=
  ⟨by decide, by decide,
    claim_C1 { type := CommandType.move, target := some "north", raw_input := "go north" }
      "sid1" [wAdv] wTbl 5 wSession
      { wSession with current_location_id := "room2"
                      visited_locations := ["room1", "room2"]
                      updated_at := 5
                      last_played_at := 5 }
      wAdv wRoom1
      { success := true, message := "Room Two\n\nSecond room.", location_changed := true }
      [{ wSession with current_location_id := "room2"
                       visited_locations := ["room1", "room2"]
                       updated_at := 5
                       last_played_at := 5 }]
      (by decide) (by decide) (by decide) (by decide) (by decide) (by decide)⟩

/-- Claim C2: the visited-locations set is monotonically non-decreasing:
at creation the (returned and stored) session's visited set holds exactly
the starting location id, and no sequence of session-store or executor
operations addressed to a session ever removes an element from its stored
visited set. -/
theorem claim_C2 :
    (∀ (tbl : List GameSession) (adventure_id starting_location_id : String)
        (player_name : Option String) (session_id : String) (now : Nat),
      (create_session tbl adventure_id starting_location_id player_name
        session_id now).1.visited_locations = [starting_location_id]) ∧
    (∀ (tbl : List GameSession) (adventure_id starting_location_id : String)
        (player_name : Option String) (session_id : String) (now : Nat)
        (c : GameSession),
      get_session (create_session tbl adventure_id starting_location_id player_name
        session_id now).2 session_id = some c →
      c.visited_locations = [starting_location_id]) ∧
    (∀ (session_id : String) (ops : List StoreOp) (tbl : List GameSession)
        (s s2 : GameSession),
      get_session tbl session_id = some s →
      get_session (runOps session_id tbl ops) session_id = some s2 →
      ∀ x ∈ s.visited_locations, x ∈ s2.visited_locations) := by
  refine ⟨?_, ?_, ?_⟩
  · intros
    rfl
  · intro tbl aid st pn sid now c hget
    simp only [create_session] at hget
    rw [get_session_save_self _ _ _ _ rfl] at hget
    have he : c = refresh
        { id := sid, adventure_id := aid, player_name := pn
          current_location_id := st, visited_locations := [st]
          created_at := now, updated_at := now, last_played_at := now } now :=
      (Option.some.inj hget).symm
    rw [he]
    rfl
  · intro sid ops tbl s s2 hs hs2 x hx
    refine runOps_vis sid s.visited_locations ops tbl ?_ s2 hs2 x hx
    intro s0 hs0 y hy
    have he : s = s0 := Option.some.inj (hs.symm.trans hs0)
    rw [← he]
    exact hy

theorem claim_C2_witness :
    (create_session [] "adv1" "room1" none "sid9" 7).1.visited_locations = ["room1"] ∧
    get_session (create_session [] "adv1" "room1" none "sid9" 7).2 "sid9" =
      some { id := "sid9", adventure_id := "adv1", current_location_id := "room1"
             visited_locations := ["room1"], created_at := 7, updated_at := 7
             last_played_at := 7 } ∧
    ({ id := "sid9", adventure_id := "adv1", current_location_id := "room1"
       visited_locations := ["room1"], created_at := 7, updated_at := 7
       last_played_at := 7 } : GameSession).visited_locations = ["room1"] ∧
    get_session (runOps "sid1" wTbl [StoreOp.moveLoc "room2" 5]) "sid1" =
      some { wSession with current_location_id := "room2"
                           visited_locations := ["room1", "room2"]
                           updated_at := 5
                           last_played_at := 5 } ∧
    "room1" ∈ ({ wSession with current_location_id := "room2"
                               visited_locations := ["room1", "room2"]
                               updated_at := 5
                               last_played_at := 5 } : GameSession).visited_locations :=
  ⟨claim_C2.1 [] "adv1" "room1" none "sid9" 7,
   by decide,
   claim_C2.2.1 [] "adv1" "room1" none "sid9" 7 _ (by decide),
   by decide,
   claim_C2.2.2 "sid1" [StoreOp.moveLoc "room2" 5] wTbl wSession
     { wSession with current_location_id := "room2"
                     visited_locations := ["room1", "room2"]
                     updated_at := 5
                     last_played_at := 5 }
     (by decide) (by decide) "room1" (by decide)⟩

/-- Claim C5: the rule-based fallback parser is a total function (it never
raises), and when no recognizer matches the lower-cased trimmed input —
none of the exact-match commands, no accepted movement candidate, and no
take, drop, examine or use pattern — it returns `type = unknown` with
confidence 0 and an error message that quotes the raw input and suggests
`help`. -/
theorem claim_C5 (player_input : String) (location : Location)
    (inventory : List String)
    (hinv : ¬ normalizeInput player_input ∈ ["inventory", "i", "inv"])
    (hlook : ¬ normalizeInput player_input ∈ ["look", "l", "look around"])
    (hhelp : ¬ normalizeInput player_input ∈ ["help", "?"])
    (hmove : recognizeMove (normalizeInput player_input) location = none)
    (htake : recognizeTake (normalizeInput player_input) = none)
    (hdrop : recognizeDrop (normalizeInput player_input) = none)
    (hexam : recognizeExamine (normalizeInput player_input) = none)
    (huse : recognizeUse (normalizeInput player_input) = none) :
    parse_with_patterns player_input location inventory =
      { type := CommandType.unknown, raw_input := player_input, confidence := 0
        error_message := some (("I don't understand '" ++ player_input) ++
          "'. Type 'help' for assistance.") } ∧
    strContains (("I don't understand '" ++ player_input) ++
      "'. Type 'help' for assistance.") player_input = true ∧
    strContains (("I don't understand '" ++ player_input) ++
      "'. Type 'help' for assistance.") "help" = true := by
  refine ⟨?_, ?_, ?_⟩
  · simp only [parse_with_patterns, parseRest, hmove, htake, hdrop, hexam, huse,
      if_neg hinv, if_neg hlook, if_neg hhelp]
  · exact strContains_append_mid _ _ _
  · unfold strContains
    simp only [String.data_append]
    exact isSubList_append_left _ _ _ (by decide)

theorem claim_C5_witness :
    (¬ normalizeInput "xyzzy plugh" ∈ ["inventory", "i", "inv"]) ∧
    recognizeMove (normalizeInput "xyzzy plugh") wRoom1 = none ∧
    recognizeTake (normalizeInput "xyzzy plugh") = none ∧
    (parse_with_patterns "xyzzy plugh" wRoom1 [] =
      { type := CommandType.unknown, raw_input := "xyzzy plugh", confidence := 0
        error_message := some (("I don't understand '" ++ "xyzzy plugh") ++
          "'. Type 'help' for assistance.") } ∧
     strContains (("I don't understand '" ++ "xyzzy plugh") ++
       "'. Type 'help' for assistance.") "xyzzy plugh" = true ∧
     strContains (("I don't understand '" ++ "xyzzy plugh") ++
       "'. Type 'help' for assistance.") "help" = true) :=
  ⟨by decide, by decide, by decide,
   claim_C5 "xyzzy plugh" wRoom1 [] (by decide) (by decide) (by decide)
     (by decide) (by decide) (by decide) (by decide) (by decide)⟩

/-- Claim C6: in the fallback parser (outside the exact-match commands), a
movement-pattern input — verb plus trailing word, bare direction word, or
single bare word — is returned as a `move` command exactly when the first
matching pattern's candidate is a key of the current location's exits;
when no candidate is such a key the parser does not return `unknown` but
evaluates the later take/drop/examine/use recognizer chain. -/
theorem claim_C6 (player_input : String) (location : Location)
    (inventory : List String)
    (hinv : ¬ normalizeInput player_input ∈ ["inventory", "i", "inv"])
    (hlook : ¬ normalizeInput player_input ∈ ["look", "l", "look around"])
    (hhelp : ¬ normalizeInput player_input ∈ ["help", "?"]) :
    (∀ d c, recognizeMove (normalizeInput player_input) location = some (d, c) →
      (List.lookup d location.exits).isSome = true ∧
      parse_with_patterns player_input location inventory =
        { type := CommandType.move, target := some d, raw_input := player_input
          confidence := c }) ∧
    (¬ moveCandidates (normalizeInput player_input) = [] →
      recognizeMove (normalizeInput player_input) location = none →
      parse_with_patterns player_input location inventory =
        parseRest (normalizeInput player_input) player_input) := by
  constructor
  · intro d c hm
    constructor
    · have := List.find?_some hm
      simpa using this
    · simp only [parse_with_patterns, hm, if_neg hinv, if_neg hlook, if_neg hhelp]
  · intro _ hm
    simp only [parse_with_patterns, hm, if_neg hinv, if_neg hlook, if_neg hhelp]

theorem claim_C6_witness :
    recognizeMove (normalizeInput "go north") wRoom1 = some ("north", 1) ∧
    ((List.lookup "north" wRoom1.exits).isSome = true ∧
      parse_with_patterns "go north" wRoom1 [] =
        { type := CommandType.move, target := some "north", raw_input := "go north"
          confidence := 1 }) ∧
    (¬ moveCandidates (normalizeInput "go valley") = []) ∧
    recognizeMove (normalizeInput "go valley") wRoom1 = none ∧
    parse_with_patterns "go valley" wRoom1 [] =
      parseRest (normalizeInput "go valley") "go valley" :=
  ⟨rfl,
   (claim_C6 "go north" wRoom1 [] (by decide) (by decide) (by decide)).1 "north" 1 rfl,
   by decide,
   by decide,
   (claim_C6 "go valley" wRoom1 [] (by decide) (by decide) (by decide)).2
     (by decide) (by decide)⟩
